import Mathlib

/-!
Verification of the nearest-facility routing and request-queue ranking subsystem
of the Jeevrakshak emergency-care backend.

The development shallowly embeds the relevant JavaScript sources:
* `jeevrakshak-backend/server.js` — geo-distance (`getDistance`), nearest-facility
  scan (`findNearestHospital`), the SOS / doctor-connect dispatch endpoints, and the
  hospital-facing pending-queue endpoint (`GET /api/doctor-requests`);
* `Jeevrakshak/hospital.js` — the queue-resolution caller.

JavaScript numbers that can be NaN (the `parseFloat` results of stored facility
coordinates) are modelled by `JNum`; genuine real arithmetic (the Haversine
formula) is modelled over `ℝ`.  Timestamps (`new Date()`) are modelled as `ℤ`
ordered by time.  MongoDB documents inserted by the dispatcher are mirrored
field-for-field, and the Mongo sort `{criticality: -1, timestamp: 1}` is modelled
by a comparison-based sort using byte-wise (lexicographic) string order, which is
MongoDB's comparison for string-typed fields under the default collation.
-/

/-- A JavaScript number that may be NaN: `JNum.num x` models a finite value,
`JNum.nan` models NaN (e.g. `parseFloat` of a non-numeric location field). -/
inductive JNum where
  | nan : JNum
  | num : ℝ → JNum

/-- `toRad` from server.js: `(deg) => deg * (Math.PI / 180)`. -/
noncomputable def toRad (deg : ℝ) : ℝ :=
  deg * (Real.pi / 180)

/-- Real-valued model of JavaScript `Math.atan2` (on non-NaN arguments, ignoring
signed zero, which real numbers do not have). -/
noncomputable def atan2 (y x : ℝ) : ℝ :=
  if 0 < x then Real.arctan (y / x)
  else if x < 0 then
    (if 0 ≤ y then Real.arctan (y / x) + Real.pi else Real.arctan (y / x) - Real.pi)
  else
    (if 0 < y then Real.pi / 2 else if y < 0 then -(Real.pi / 2) else 0)

/-- The intermediate `a` of `getDistance` in server.js:
`sin(dLat/2)*sin(dLat/2) + cos(toRad(lat1))*cos(toRad(lat2))*sin(dLon/2)*sin(dLon/2)`
with `dLat = toRad(lat2 - lat1)` and `dLon = toRad(lon2 - lon1)`. -/
noncomputable def haversineA (lat1 lon1 lat2 lon2 : ℝ) : ℝ :=
  Real.sin (toRad (lat2 - lat1) / 2) * Real.sin (toRad (lat2 - lat1) / 2) +
    Real.cos (toRad lat1) * Real.cos (toRad lat2) *
      Real.sin (toRad (lon2 - lon1) / 2) * Real.sin (toRad (lon2 - lon1) / 2)

/-- `getDistance(lat1, lon1, lat2, lon2)` from server.js: the Haversine distance
`R * c` with `R = 6371` and `c = 2 * atan2(sqrt(a), sqrt(1 - a))`. -/
noncomputable def getDistance (lat1 lon1 lat2 lon2 : ℝ) : ℝ :=
  6371 *
    (2 * atan2 (Real.sqrt (haversineA lat1 lon1 lat2 lon2))
      (Real.sqrt (1 - haversineA lat1 lon1 lat2 lon2)))

lemma haversineA_symm (lat1 lon1 lat2 lon2 : ℝ) :
    haversineA lat1 lon1 lat2 lon2 = haversineA lat2 lon2 lat1 lon1 := by
  unfold haversineA toRad
  have h1 : (lat1 - lat2) * (Real.pi / 180) / 2 = -((lat2 - lat1) * (Real.pi / 180) / 2) := by
    ring
  have h2 : (lon1 - lon2) * (Real.pi / 180) / 2 = -((lon2 - lon1) * (Real.pi / 180) / 2) := by
    ring
  rw [h1, h2, Real.sin_neg, Real.sin_neg]
  ring

lemma haversineA_self (lat lon : ℝ) : haversineA lat lon lat lon = 0 := by
  unfold haversineA toRad
  have h1 : (lat - lat) * (Real.pi / 180) / 2 = 0 := by ring
  have h2 : (lon - lon) * (Real.pi / 180) / 2 = 0 := by ring
  rw [h1, h2, Real.sin_zero]
  ring

lemma atan2_nonneg (y x : ℝ) (hy : 0 ≤ y) : 0 ≤ atan2 y x := by
  unfold atan2
  have hpi := Real.pi_pos
  have harc := Real.neg_pi_div_two_lt_arctan (y / x)
  split_ifs with h1 h2 h3 h4
  · have hle : (0 : ℝ) ≤ y / x := div_nonneg hy h1.le
    have h := Real.arctan_strictMono.monotone hle
    rwa [Real.arctan_zero] at h
  all_goals linarith

/-- Claim C8: `getDistance` is symmetric in its two coordinate pairs, returns `0`
on identical coordinates, and its result is always nonnegative. -/
theorem getDistance_symm_zero_nonneg (lat1 lon1 lat2 lon2 : ℝ) :
    getDistance lat1 lon1 lat2 lon2 = getDistance lat2 lon2 lat1 lon1 ∧
      getDistance lat1 lon1 lat1 lon1 = 0 ∧
      0 ≤ getDistance lat1 lon1 lat2 lon2 := by
  refine ⟨?_, ?_, ?_⟩
  · unfold getDistance
    rw [haversineA_symm lat1 lon1 lat2 lon2]
  · unfold getDistance
    rw [haversineA_self]
    norm_num [atan2, Real.arctan_zero]
  · unfold getDistance
    have h := atan2_nonneg (Real.sqrt (haversineA lat1 lon1 lat2 lon2))
      (Real.sqrt (1 - haversineA lat1 lon1 lat2 lon2)) (Real.sqrt_nonneg _)
    nlinarith

/-- A document of the `users` collection, restricted to the fields this subsystem
reads.  `location`, when present, holds the two `parseFloat` results of the stored
`location.lat` / `location.lng` fields (`JNum.nan` when a field is non-numeric);
`location = none` models an absent `location` (the code's `null` case).  `username`
and `name` are optional because registered hospitals have `name` but no `username`
while the seeded admin hospital has `username` but no `name`. -/
structure User where
  _id : String
  username : Option String
  name : Option String
  role : String
  status : Option String
  location : Option (JNum × JNum)

/-- The Mongo query filter `{ role: 'hospital', status: 'APPROVED' }` of
`findNearestHospital`. -/
def approvedHospital (u : User) : Bool :=
  u.role == "hospital" && u.status == some "APPROVED"

/-- `getDistance` lifted to possibly-NaN arguments: IEEE arithmetic propagates a
NaN argument through every operation of the formula, so the result is NaN exactly
when some argument is. -/
noncomputable def getDistanceJ : JNum → JNum → JNum → JNum → JNum
  | JNum.num lat1, JNum.num lon1, JNum.num lat2, JNum.num lon2 =>
      JNum.num (getDistance lat1 lon1 lat2 lon2)
  | _, _, _, _ => JNum.nan

/-- The scan loop of `findNearestHospital` (server.js lines 104-119).  The
accumulator is `none` while `minDistance` is still `Infinity` and
`some (nearestHospital, minDistance)` afterwards.  A `none` location skips the
body (the `hLat !== null && hLng !== null` guard); a NaN distance is skipped
because `NaN < minDistance` is false; a finite distance always beats `Infinity`. -/
noncomputable def findNearestGo (plat plng : ℝ) :
    List User → Option (User × ℝ) → Option (User × ℝ)
  | [], acc => acc
  | hospital :: rest, acc =>
    match hospital.location with
    | none => findNearestGo plat plng rest acc
    | some (hLat, hLng) =>
      match getDistanceJ (JNum.num plat) (JNum.num plng) hLat hLng with
      | JNum.nan => findNearestGo plat plng rest acc
      | JNum.num distance =>
        match acc with
        | none => findNearestGo plat plng rest (some (hospital, distance))
        | some (best, minDistance) =>
          if distance < minDistance then
            findNearestGo plat plng rest (some (hospital, distance))
          else
            findNearestGo plat plng rest (some (best, minDistance))

/-- `findNearestHospital(patientLat, patientLng)` from server.js: query the
approved hospitals, scan them, and return the nearest with its distance (`none`
models the function's `null`). -/
noncomputable def findNearestHospital (users : List User) (patientLat patientLng : ℝ) :
    Option (User × ℝ) :=
  findNearestGo patientLat patientLng (users.filter approvedHospital) none

/-- The numeric coordinates of a user, when both stored fields parse: the
spec's notion of a facility "coordinate" (present and numeric). -/
def numCoords (u : User) : Option (ℝ × ℝ) :=
  match u.location with
  | some (JNum.num la, JNum.num lg) => some (la, lg)
  | _ => none

/-- The distance the scan would compute for a candidate, when its coordinates
are present and numeric. -/
noncomputable def vdist (plat plng : ℝ) (u : User) : Option ℝ :=
  (numCoords u).map fun p => getDistance plat plng p.1 p.2

lemma findNearestGo_cons_skip (plat plng : ℝ) (u : User) (l : List User)
    (acc : Option (User × ℝ)) (h : vdist plat plng u = none) :
    findNearestGo plat plng (u :: l) acc = findNearestGo plat plng l acc := by
  unfold vdist numCoords at h
  rcases hloc : u.location with _ | ⟨la, lg⟩
  · simp [findNearestGo, hloc]
  · rw [hloc] at h
    cases la <;> cases lg <;> simp_all [findNearestGo, getDistanceJ, hloc]

lemma findNearestGo_cons_num (plat plng : ℝ) (u : User) (l : List User)
    (acc : Option (User × ℝ)) (d : ℝ) (h : vdist plat plng u = some d) :
    findNearestGo plat plng (u :: l) acc =
      match acc with
      | none => findNearestGo plat plng l (some (u, d))
      | some (b, m) =>
        if d < m then findNearestGo plat plng l (some (u, d))
        else findNearestGo plat plng l (some (b, m)) := by
  unfold vdist numCoords at h
  rcases hloc : u.location with _ | ⟨la, lg⟩
  · rw [hloc] at h
    simp at h
  · rw [hloc] at h
    cases la <;> cases lg <;> simp_all [findNearestGo, getDistanceJ, hloc]

lemma findNearestGo_isSome (plat plng : ℝ) (l : List User) (b : User) (m : ℝ) :
    ∃ r, findNearestGo plat plng l (some (b, m)) = some r := by
  induction l generalizing b m with
  | nil => exact ⟨(b, m), rfl⟩
  | cons u l ih =>
    rcases hv : vdist plat plng u with _ | d
    · rw [findNearestGo_cons_skip plat plng u l _ hv]
      exact ih b m
    · rw [findNearestGo_cons_num plat plng u l _ d hv]
      by_cases hlt : d < m
      · simpa [hlt] using ih u d
      · simpa [hlt] using ih b m

lemma findNearestGo_none_iff (plat plng : ℝ) (l : List User) :
    findNearestGo plat plng l none = none ↔ ∀ v ∈ l, vdist plat plng v = none := by
  constructor
  · intro h
    induction l with
    | nil => intro v hv; exact absurd hv (List.not_mem_nil v)
    | cons u l ih =>
      rcases hv : vdist plat plng u with _ | d
      · rw [findNearestGo_cons_skip plat plng u l _ hv] at h
        intro v hvmem
        rcases List.mem_cons.mp hvmem with rfl | hvl
        · exact hv
        · exact ih h v hvl
      · rw [findNearestGo_cons_num plat plng u l _ d hv] at h
        obtain ⟨r, hr⟩ := findNearestGo_isSome plat plng l u d
        simp only [hr] at h
        exact absurd h (by simp)
  · intro h
    induction l with
    | nil => rfl
    | cons u l ih =>
      rw [findNearestGo_cons_skip plat plng u l _ (h u (List.mem_cons_self u l))]
      exact ih fun v hv => h v (List.mem_cons_of_mem u hv)

lemma findNearestGo_mem (plat plng : ℝ) (l : List User) (acc : Option (User × ℝ))
    (r : User × ℝ) (h : findNearestGo plat plng l acc = some r) :
    acc = some r ∨ (r.1 ∈ l ∧ vdist plat plng r.1 = some r.2) := by
  induction l generalizing acc with
  | nil => exact Or.inl h
  | cons u l ih =>
    rcases hv : vdist plat plng u with _ | d
    · rw [findNearestGo_cons_skip plat plng u l _ hv] at h
      rcases ih acc h with hacc | ⟨hmem, hd⟩
      · exact Or.inl hacc
      · exact Or.inr ⟨List.mem_cons_of_mem u hmem, hd⟩
    · rw [findNearestGo_cons_num plat plng u l _ d hv] at h
      rcases acc with _ | ⟨b, m⟩
      · rcases ih (some (u, d)) h with hacc | ⟨hmem, hd⟩
        · have : r = (u, d) := by simpa using hacc.symm
          subst this
          exact Or.inr ⟨List.mem_cons_self u l, hv⟩
        · exact Or.inr ⟨List.mem_cons_of_mem u hmem, hd⟩
      · by_cases hlt : d < m
        · simp only [hlt, if_true] at h
          rcases ih (some (u, d)) h with hacc | ⟨hmem, hd⟩
          · have : r = (u, d) := by simpa using hacc.symm
            subst this
            exact Or.inr ⟨List.mem_cons_self u l, hv⟩
          · exact Or.inr ⟨List.mem_cons_of_mem u hmem, hd⟩
        · simp only [hlt, if_false] at h
          rcases ih (some (b, m)) h with hacc | ⟨hmem, hd⟩
          · exact Or.inl hacc
          · exact Or.inr ⟨List.mem_cons_of_mem u hmem, hd⟩

lemma somePair_inj {b u : User} {m d : ℝ}
    (h : (some (b, m) : Option (User × ℝ)) = some (u, d)) : b = u ∧ m = d := by
  simpa [Prod.ext_iff] using h

lemma findNearestGo_min (plat plng : ℝ) (l : List User) (acc : Option (User × ℝ))
    (u : User) (d : ℝ) (h : findNearestGo plat plng l acc = some (u, d)) :
    (∀ b m, acc = some (b, m) → d ≤ m) ∧
      ∀ v ∈ l, ∀ dv, vdist plat plng v = some dv → d ≤ dv := by
  induction l generalizing acc with
  | nil =>
    have hacc : acc = some (u, d) := h
    refine ⟨fun b m hbm => ?_, fun v hv => absurd hv (List.not_mem_nil v)⟩
    rw [hbm] at hacc
    exact le_of_eq (somePair_inj hacc).2.symm
  | cons w l ih =>
    rcases hv : vdist plat plng w with _ | dw
    · rw [findNearestGo_cons_skip plat plng w l _ hv] at h
      obtain ⟨hacc, hrest⟩ := ih acc h
      refine ⟨hacc, fun v hvmem dv hdv => ?_⟩
      rcases List.mem_cons.mp hvmem with rfl | hvl
      · rw [hv] at hdv; exact absurd hdv (by simp)
      · exact hrest v hvl dv hdv
    · rw [findNearestGo_cons_num plat plng w l _ dw hv] at h
      rcases acc with _ | ⟨b, m⟩
      · obtain ⟨hacc, hrest⟩ := ih (some (w, dw)) h
        have hddw : d ≤ dw := hacc w dw rfl
        refine ⟨fun b m hbm => Option.noConfusion hbm, fun v hvmem dv hdv => ?_⟩
        rcases List.mem_cons.mp hvmem with rfl | hvl
        · rw [hv] at hdv
          have hdd : dw = dv := by simpa using hdv
          exact hdd ▸ hddw
        · exact hrest v hvl dv hdv
      · by_cases hlt : dw < m
        · simp only [hlt, if_true] at h
          obtain ⟨hacc, hrest⟩ := ih (some (w, dw)) h
          have hddw : d ≤ dw := hacc w dw rfl
          refine ⟨fun b2 m2 hbm => ?_, fun v hvmem dv hdv => ?_⟩
          · obtain ⟨-, hm⟩ := somePair_inj hbm
            subst hm
            linarith
          · rcases List.mem_cons.mp hvmem with rfl | hvl
            · rw [hv] at hdv
              have hdd : dw = dv := by simpa using hdv
              exact hdd ▸ hddw
            · exact hrest v hvl dv hdv
        · simp only [hlt, if_false] at h
          obtain ⟨hacc, hrest⟩ := ih (some (b, m)) h
          have hdm : d ≤ m := hacc b m rfl
          refine ⟨fun b2 m2 hbm => ?_, fun v hvmem dv hdv => ?_⟩
          · obtain ⟨-, hm⟩ := somePair_inj hbm
            subst hm
            exact hdm
          · rcases List.mem_cons.mp hvmem with rfl | hvl
            · rw [hv] at hdv
              have hdd : dw = dv := by simpa using hdv
              subst hdd
              linarith
            · exact hrest v hvl dv hdv

lemma findNearestGo_first (plat plng : ℝ) (l : List User) (acc : Option (User × ℝ))
    (u : User) (d : ℝ) (h : findNearestGo plat plng l acc = some (u, d)) :
    acc = some (u, d) ∨
      ∃ l₁ l₂, l = l₁ ++ u :: l₂ ∧ vdist plat plng u = some d ∧
        (∀ v ∈ l₁, ∀ dv, vdist plat plng v = some dv → d < dv) ∧
        ∀ b m, acc = some (b, m) → d < m := by
  induction l generalizing acc with
  | nil => exact Or.inl h
  | cons w l ih =>
    rcases hv : vdist plat plng w with _ | dw
    · rw [findNearestGo_cons_skip plat plng w l _ hv] at h
      rcases ih acc h with hacc | ⟨l₁, l₂, heq, hd, hpre, haccs⟩
      · exact Or.inl hacc
      · refine Or.inr ⟨w :: l₁, l₂, by rw [heq]; rfl, hd, fun v hvmem dv hdv => ?_, haccs⟩
        rcases List.mem_cons.mp hvmem with rfl | hvl
        · rw [hv] at hdv; exact absurd hdv (by simp)
        · exact hpre v hvl dv hdv
    · rw [findNearestGo_cons_num plat plng w l _ dw hv] at h
      rcases acc with _ | ⟨b, m⟩
      · rcases ih (some (w, dw)) h with hacc | ⟨l₁, l₂, heq, hd, hpre, haccs⟩
        · obtain ⟨rfl, rfl⟩ := somePair_inj hacc
          exact Or.inr ⟨[], l, rfl, hv, by simp, fun b m hbm => Option.noConfusion hbm⟩
        · have hddw : d < dw := haccs w dw rfl
          refine Or.inr ⟨w :: l₁, l₂, by rw [heq]; rfl, hd, fun v hvmem dv hdv => ?_,
            fun b m hbm => Option.noConfusion hbm⟩
          rcases List.mem_cons.mp hvmem with rfl | hvl
          · rw [hv] at hdv
            have hdd : dw = dv := by simpa using hdv
            exact hdd ▸ hddw
          · exact hpre v hvl dv hdv
      · by_cases hlt : dw < m
        · simp only [hlt, if_true] at h
          rcases ih (some (w, dw)) h with hacc | ⟨l₁, l₂, heq, hd, hpre, haccs⟩
          · obtain ⟨rfl, rfl⟩ := somePair_inj hacc
            refine Or.inr ⟨[], l, rfl, hv, by simp, fun b2 m2 hbm => ?_⟩
            obtain ⟨-, hm⟩ := somePair_inj hbm
            subst hm
            exact hlt
          · have hddw : d < dw := haccs w dw rfl
            refine Or.inr ⟨w :: l₁, l₂, by rw [heq]; rfl, hd, fun v hvmem dv hdv => ?_,
              fun b2 m2 hbm => ?_⟩
            · rcases List.mem_cons.mp hvmem with rfl | hvl
              · rw [hv] at hdv
                have hdd : dw = dv := by simpa using hdv
                exact hdd ▸ hddw
              · exact hpre v hvl dv hdv
            · obtain ⟨-, hm⟩ := somePair_inj hbm
              subst hm
              linarith
        · simp only [hlt, if_false] at h
          rcases ih (some (b, m)) h with hacc | ⟨l₁, l₂, heq, hd, hpre, haccs⟩
          · exact Or.inl hacc
          · have hdm : d < m := haccs b m rfl
            refine Or.inr ⟨w :: l₁, l₂, by rw [heq]; rfl, hd, fun v hvmem dv hdv => ?_,
              fun b2 m2 hbm => ?_⟩
            · rcases List.mem_cons.mp hvmem with rfl | hvl
              · rw [hv] at hdv
                have hdd : dw = dv := by simpa using hdv
                subst hdd
                linarith
              · exact hpre v hvl dv hdv
            · obtain ⟨-, hm⟩ := somePair_inj hbm
              subst hm
              exact hdm

lemma approvedHospital_iff (u : User) :
    approvedHospital u = true ↔ u.role = "hospital" ∧ u.status = some "APPROVED" := by
  simp [approvedHospital]

/-- Claim C3: whenever at least one APPROVED facility with a (present, numeric)
coordinate exists, `findNearestHospital` returns an eligible facility whose
distance is less than or equal to that of every other eligible facility, and the
returned facility is the first one of the candidate sequence achieving that
minimum (every eligible candidate strictly before it is strictly farther), i.e.
the strict `<` comparison makes the first-encountered facility win exact ties. -/
theorem findNearestHospital_min_first (users : List User) (plat plng : ℝ)
    (h : ∃ u ∈ users, approvedHospital u = true ∧ (numCoords u).isSome) :
    ∃ u d, findNearestHospital users plat plng = some (u, d) ∧
      u ∈ users ∧ approvedHospital u = true ∧
      vdist plat plng u = some d ∧
      (∀ v ∈ users, approvedHospital v = true →
        ∀ dv, vdist plat plng v = some dv → d ≤ dv) ∧
      ∃ l₁ l₂, users.filter approvedHospital = l₁ ++ u :: l₂ ∧
        ∀ v ∈ l₁, ∀ dv, vdist plat plng v = some dv → d < dv := by
  obtain ⟨u0, hu0mem, hu0ap, hu0c⟩ := h
  have hne : findNearestHospital users plat plng ≠ none := by
    intro hnone
    rw [findNearestHospital] at hnone
    have hall := (findNearestGo_none_iff plat plng _).mp hnone
    have hv0 : vdist plat plng u0 = none :=
      hall u0 (List.mem_filter.mpr ⟨hu0mem, hu0ap⟩)
    rw [vdist] at hv0
    rcases hc : numCoords u0 with _ | p
    · rw [hc] at hu0c; simp at hu0c
    · rw [hc] at hv0; simp at hv0
  rcases hres : findNearestHospital users plat plng with _ | ⟨u, d⟩
  · exact absurd hres hne
  have hgo : findNearestGo plat plng (users.filter approvedHospital) none = some (u, d) := hres
  rcases findNearestGo_mem plat plng _ none (u, d) hgo with hacc | ⟨humem, -⟩
  · exact absurd hacc (by simp)
  have hufilter : u ∈ users.filter approvedHospital := humem
  obtain ⟨-, hmin⟩ := findNearestGo_min plat plng _ none u d hgo
  rcases findNearestGo_first plat plng _ none u d hgo with hacc | ⟨l₁, l₂, heq, hd, hpre, -⟩
  · exact absurd hacc (by simp)
  exact ⟨u, d, rfl, (List.mem_filter.mp hufilter).1, (List.mem_filter.mp hufilter).2, hd,
    fun v hv hvap dv hdv => hmin v (List.mem_filter.mpr ⟨hv, hvap⟩) dv hdv,
    l₁, l₂, heq, hpre⟩

/-- Claim C10: the resolver never returns a facility whose stored location fields
fail to parse as numbers — a NaN distance fails the strict `<` comparison, so such
facilities are skipped — and when no APPROVED facility has numeric coordinates it
returns `none` rather than a facility with a NaN distance. -/
theorem findNearestHospital_skips_nonnumeric (users : List User) (plat plng : ℝ) :
    (∀ u d, findNearestHospital users plat plng = some (u, d) →
      ∃ la lg, u.location = some (JNum.num la, JNum.num lg) ∧
        d = getDistance plat plng la lg) ∧
    ((∀ u ∈ users, approvedHospital u = true → numCoords u = none) →
      findNearestHospital users plat plng = none) := by
  constructor
  · intro u d hres
    have hgo : findNearestGo plat plng (users.filter approvedHospital) none = some (u, d) := hres
    rcases findNearestGo_mem plat plng _ none (u, d) hgo with hacc | ⟨-, hud⟩
    · exact absurd hacc (by simp)
    rw [vdist] at hud
    rcases hc : numCoords u with _ | ⟨la, lg⟩
    · rw [hc] at hud; simp at hud
    · rw [hc] at hud
      have hdval : d = getDistance plat plng la lg := by simpa using hud.symm
      refine ⟨la, lg, ?_, hdval⟩
      unfold numCoords at hc
      rcases hloc : u.location with _ | ⟨a, b⟩
      · rw [hloc] at hc; simp at hc
      · rw [hloc] at hc
        cases a <;> cases b <;> simp_all
  · intro hall
    rw [findNearestHospital]
    apply (findNearestGo_none_iff plat plng _).mpr
    intro v hvf
    have hnone := hall v (List.mem_filter.mp hvf).1 (List.mem_filter.mp hvf).2
    rw [vdist, hnone]
    rfl

/-- JavaScript `a || b` for two possibly-missing string fields: the left value
wins unless it is absent or the empty string (falsy). -/
def jsOr (a b : Option String) : Option String :=
  match a with
  | some s => if s = "" then b else some s
  | none => b

/-- A document of the `doctorRequests` collection, with exactly the fields the
dispatch endpoints write.  `_id` models the ObjectId MongoDB assigns at
`insertOne`; `lat`/`lng` are the two fields of the request body's `location`
object; the creation `timestamp` (`new Date()`) is modelled as an integer. -/
structure Request where
  _id : String
  patientName : String
  reason : String
  criticality : String
  lat : ℝ
  lng : ℝ
  hospitalId : String
  hospitalName : Option String
  timestamp : ℤ
  type : String
  status : String

/-- A BSON value as this subsystem stores them: a string, a number, the
`location` sub-document, a `Date`, or the undefined value. -/
inductive JVal where
  | jstr : String → JVal
  | jnum : ℝ → JVal
  | jloc : ℝ × ℝ → JVal
  | jdate : ℤ → JVal
  | jundef : JVal

/-- The field list of the document the dispatcher passes to `insertOne`,
mirroring the `newRequest` object literal of server.js key for key (the
DB-generated `_id` is not part of the literal and is omitted). -/
def Request.toDoc (r : Request) : List (String × JVal) :=
  [("patientName", JVal.jstr r.patientName),
   ("reason", JVal.jstr r.reason),
   ("criticality", JVal.jstr r.criticality),
   ("location", JVal.jloc (r.lat, r.lng)),
   ("hospitalId", JVal.jstr r.hospitalId),
   ("hospitalName", match r.hospitalName with
                    | some s => JVal.jstr s
                    | none => JVal.jundef),
   ("timestamp", JVal.jdate r.timestamp),
   ("type", JVal.jstr r.type),
   ("status", JVal.jstr r.status)]

/-- The persistent state this subsystem touches: the `users` collection and the
`doctorRequests` collection. -/
structure Store where
  users : List User
  doctorRequests : List Request

/-- The request body of `POST /api/sos-request` and `POST /api/doctor-request`:
`{ patientName, reason, criticality, location }`.  `criticality = none` models an
absent field. -/
structure ReqBody where
  patientName : String
  reason : String
  criticality : Option String
  lat : ℝ
  lng : ℝ

/-- An HTTP response of the two dispatch endpoints: `created` carries the 201
payload `{ message, hospitalName, distance }`, `error` a failure status and
message. -/
inductive Response where
  | created : String → Option String → ℝ → Response
  | error : ℕ → String → Response

/-- `POST /api/sos-request` (server.js lines 395-430): find the nearest approved
hospital; on `null` answer 503 and leave the store unchanged; otherwise insert
the `newRequest` document — criticality forced to `'HIGH'`, reason tagged with
the emergency marker, `type: 'SOS'`, `status: 'PENDING'`, no distance field —
and answer 201 with the facility name and the computed distance.  `newId` is the
ObjectId MongoDB generates for the inserted document. -/
noncomputable def handleSosRequest (store : Store) (body : ReqBody) (now : ℤ)
    (newId : String) : Response × Store :=
  match findNearestHospital store.users body.lat body.lng with
  | none => (Response.error 503 "No operational hospitals found.", store)
  | some (hosp, dist) =>
    let newRequest : Request :=
      { _id := newId
        patientName := body.patientName
        reason := "🚨 SOS Alert: " ++ body.reason
        criticality := "HIGH"
        lat := body.lat
        lng := body.lng
        hospitalId := hosp._id
        hospitalName := jsOr hosp.username hosp.name
        timestamp := now
        type := "SOS"
        status := "PENDING" }
    (Response.created "SOS request dispatched." (jsOr hosp.username hosp.name) dist,
     { store with doctorRequests := store.doctorRequests ++ [newRequest] })

/-- `POST /api/doctor-request` (server.js lines 433-468): like the SOS endpoint
but with `type: 'DOCTOR_CONNECT'`, the caller's reason untagged, and criticality
`criticality ? criticality.toUpperCase() : 'LOW'` (an absent or empty — falsy —
value defaults to `'LOW'`). -/
noncomputable def handleDoctorRequest (store : Store) (body : ReqBody) (now : ℤ)
    (newId : String) : Response × Store :=
  match findNearestHospital store.users body.lat body.lng with
  | none => (Response.error 503 "No operational hospitals found.", store)
  | some (hosp, dist) =>
    let newRequest : Request :=
      { _id := newId
        patientName := body.patientName
        reason := body.reason
        criticality := match body.criticality with
                       | some c => if c = "" then "LOW" else c.toUpper
                       | none => "LOW"
        lat := body.lat
        lng := body.lng
        hospitalId := hosp._id
        hospitalName := jsOr hosp.username hosp.name
        timestamp := now
        type := "DOCTOR_CONNECT"
        status := "PENDING" }
    (Response.created "Doctor request dispatched." (jsOr hosp.username hosp.name) dist,
     { store with doctorRequests := store.doctorRequests ++ [newRequest] })

/-- Lexicographic order on character lists by code point: for the ASCII strings
this subsystem stores, exactly MongoDB's byte-wise string comparison. -/
def charListLt : List Char → List Char → Bool
  | [], [] => false
  | [], _ :: _ => true
  | _ :: _, [] => false
  | a :: as, b :: bs =>
    if a.toNat < b.toNat then true
    else if b.toNat < a.toNat then false
    else charListLt as bs

/-- Byte-wise string comparison, as BSON compares string-typed sort keys under
the default collation. -/
def strLt (a b : String) : Bool := charListLt a.data b.data

/-- The Mongo sort key `{ criticality: -1, timestamp: 1 }` of
`GET /api/doctor-requests`: `a` sorts before `b` when its `criticality` string is
byte-wise greater (`-1` is descending), with ties broken by ascending
`timestamp`. -/
def mongoBefore (a b : Request) : Bool :=
  if a.criticality = b.criticality then decide (a.timestamp ≤ b.timestamp)
  else strLt b.criticality a.criticality

/-- Insert into a list already ordered by `le`, keeping `a` after equal keys. -/
def insertBy (le : Request → Request → Bool) (a : Request) : List Request → List Request
  | [] => [a]
  | b :: bs => if le a b then a :: b :: bs else b :: insertBy le a bs

/-- A comparison sort modelling the MongoDB `sort` stage. -/
def sortBy (le : Request → Request → Bool) (l : List Request) : List Request :=
  l.foldr (insertBy le) []

/-- `GET /api/doctor-requests` (server.js lines 515-529), the store read: every
`PENDING` request system-wide — the `hospitalId` filter is commented out — sorted
by `{ criticality: -1, timestamp: 1 }`. -/
def listPendingServer (store : Store) : List Request :=
  sortBy mongoBefore (store.doctorRequests.filter fun r => r.status == "PENDING")

/-- The JWT payload `{ username, role, id }` the endpoint authenticates. -/
structure AuthUser where
  username : String
  role : String
  id : String

/-- The response of `GET /api/doctor-requests`: the request list, or the 403
`'Access denied.'` rejection for non-hospital callers. -/
inductive QueueResponse where
  | ok : List Request → QueueResponse
  | denied : ℕ → String → QueueResponse

/-- `GET /api/doctor-requests` including its role guard: any authenticated
hospital user receives the full system-wide pending queue. -/
def handleGetDoctorRequests (caller : AuthUser) (store : Store) : QueueResponse :=
  if caller.role = "hospital" then QueueResponse.ok (listPendingServer store)
  else QueueResponse.denied 403 "Access denied."

/-- The result of the resolution transition: `OK` or the `NOT_FOUND`-class
failure. -/
inductive ResolveResult where
  | ok : ResolveResult
  | notFound : ResolveResult
deriving DecidableEq

/-- Flip the first request matching `reqId` that is still `PENDING` to
`RESOLVED`, leaving every other document unchanged. -/
def flipFirstPending (reqId : String) : List Request → List Request
  | [] => []
  | r :: rest =>
    if r._id = reqId ∧ r.status = "PENDING" then { r with status := "RESOLVED" } :: rest
    else r :: flipFirstPending reqId rest

/-- Modelled from the spec: the server route `PUT /api/doctor-request/:id/resolve`
invoked by `givePrescriptionAndResolve` in hospital.js is not present in the
sources (only its client-side caller is).  Per spec §4.5, `resolve(requestId)`
returns `OK` and performs the single `PENDING → RESOLVED` transition when the
store holds a pending request with that id, and fails with `NOT_FOUND`, changing
nothing, when the id is unknown or the request is already resolved. -/
def resolveRequest (store : Store) (reqId : String) : ResolveResult × Store :=
  if store.doctorRequests.any fun r => r._id == reqId && r.status == "PENDING" then
    (ResolveResult.ok,
     { store with doctorRequests := flipFirstPending reqId store.doctorRequests })
  else (ResolveResult.notFound, store)

lemma mem_insertBy (le : Request → Request → Bool) (a x : Request) (l : List Request) :
    x ∈ insertBy le a l ↔ x = a ∨ x ∈ l := by
  induction l with
  | nil => simp [insertBy]
  | cons b bs ih =>
    unfold insertBy
    cases hle : le a b <;>
      first
        | (simp [List.mem_cons, ih]; tauto)
        | simp [List.mem_cons, ih]

lemma mem_sortBy (le : Request → Request → Bool) (x : Request) (l : List Request) :
    x ∈ sortBy le l ↔ x ∈ l := by
  induction l with
  | nil => simp [sortBy]
  | cons b bs ih =>
    simp only [sortBy, List.foldr_cons, List.mem_cons]
    rw [show List.foldr (insertBy le) [] bs = sortBy le bs from rfl] at *
    rw [mem_insertBy, ih]

lemma mem_listPendingServer (store : Store) (r : Request) :
    r ∈ listPendingServer store ↔ r ∈ store.doctorRequests ∧ r.status = "PENDING" := by
  rw [listPendingServer, mem_sortBy, List.mem_filter]
  simp

lemma flipFirstPending_decomp (reqId : String) (l : List Request)
    (h : ∃ r ∈ l, r._id = reqId ∧ r.status = "PENDING") :
    ∃ l₁ r l₂, l = l₁ ++ r :: l₂ ∧ r._id = reqId ∧ r.status = "PENDING" ∧
      (∀ p ∈ l₁, ¬(p._id = reqId ∧ p.status = "PENDING")) ∧
      flipFirstPending reqId l = l₁ ++ { r with status := "RESOLVED" } :: l₂ := by
  induction l with
  | nil => simp at h
  | cons w l ih =>
    by_cases hw : w._id = reqId ∧ w.status = "PENDING"
    · exact ⟨[], w, l, rfl, hw.1, hw.2, by simp, by simp [flipFirstPending, hw]⟩
    · have hl : ∃ r ∈ l, r._id = reqId ∧ r.status = "PENDING" := by
        obtain ⟨r, hr, hprop⟩ := h
        rcases List.mem_cons.mp hr with rfl | hrl
        · exact absurd hprop hw
        · exact ⟨r, hrl, hprop⟩
      obtain ⟨l₁, r, l₂, heq, hid, hst, hpre, hflip⟩ := ih hl
      refine ⟨w :: l₁, r, l₂, by rw [heq]; rfl, hid, hst, ?_, ?_⟩
      · intro p hp
        rcases List.mem_cons.mp hp with rfl | hpl
        · exact hw
        · exact hpre p hpl
      · simp only [flipFirstPending, hw, if_false, hflip, List.cons_append]

lemma flipFirstPending_no_new_pending (reqId : String) (l : List Request) (r : Request)
    (hmem : r ∈ flipFirstPending reqId l) (hst : r.status = "PENDING") :
    r ∈ l := by
  induction l with
  | nil => simp [flipFirstPending] at hmem
  | cons w l ih =>
    by_cases hw : w._id = reqId ∧ w.status = "PENDING"
    · simp only [flipFirstPending, hw, if_true] at hmem
      rcases List.mem_cons.mp hmem with rfl | hrl
      · simp at hst
      · exact List.mem_cons_of_mem _ hrl
    · simp only [flipFirstPending, hw, if_false] at hmem
      rcases List.mem_cons.mp hmem with rfl | hrl
      · exact List.mem_cons_self _ _
      · exact List.mem_cons_of_mem _ (ih hrl)

/-- Claim C4: `resolve(requestId)` succeeds exactly on a stored `PENDING` request
with that id, flipping precisely that request (the first such document) from
`PENDING` to `RESOLVED` and touching nothing else; on an unknown id or an
already-`RESOLVED` request it fails with `NOT_FOUND` and leaves the store
unchanged; and no call ever produces a `PENDING` request that was not already
stored as `PENDING`, so `RESOLVED` is never reverted. -/
theorem resolveRequest_transition (store : Store) (reqId : String) :
    ((∃ r ∈ store.doctorRequests, r._id = reqId ∧ r.status = "PENDING") →
      (resolveRequest store reqId).1 = ResolveResult.ok ∧
      ∃ l₁ r l₂, store.doctorRequests = l₁ ++ r :: l₂ ∧
        r._id = reqId ∧ r.status = "PENDING" ∧
        (∀ p ∈ l₁, ¬(p._id = reqId ∧ p.status = "PENDING")) ∧
        (resolveRequest store reqId).2.doctorRequests =
          l₁ ++ { r with status := "RESOLVED" } :: l₂) ∧
    ((¬∃ r ∈ store.doctorRequests, r._id = reqId ∧ r.status = "PENDING") →
      resolveRequest store reqId = (ResolveResult.notFound, store)) ∧
    ∀ r ∈ (resolveRequest store reqId).2.doctorRequests,
      r.status = "PENDING" → r ∈ store.doctorRequests := by
  by_cases hex : ∃ r ∈ store.doctorRequests, r._id = reqId ∧ r.status = "PENDING"
  · have hany : (store.doctorRequests.any fun r =>
        r._id == reqId && r.status == "PENDING") = true := by
      simp only [List.any_eq_true, Bool.and_eq_true, beq_iff_eq]
      exact hex
    have hres : resolveRequest store reqId = (ResolveResult.ok,
        { store with doctorRequests := flipFirstPending reqId store.doctorRequests }) := by
      unfold resolveRequest
      rw [if_pos hany]
    refine ⟨fun _ => ?_, fun hn => absurd hex hn, ?_⟩
    · obtain ⟨l₁, r, l₂, heq, hid, hst, hpre, hflip⟩ := flipFirstPending_decomp reqId _ hex
      rw [hres]
      exact ⟨rfl, l₁, r, l₂, heq, hid, hst, hpre, hflip⟩
    · intro r hr hst
      rw [hres] at hr
      exact flipFirstPending_no_new_pending reqId _ r hr hst
  · have hany : ¬(store.doctorRequests.any fun r =>
        r._id == reqId && r.status == "PENDING") = true := by
      simp only [List.any_eq_true, Bool.and_eq_true, beq_iff_eq]
      exact hex
    have hres : resolveRequest store reqId = (ResolveResult.notFound, store) := by
      unfold resolveRequest
      rw [if_neg hany]
    refine ⟨fun hx => absurd hx hex, fun _ => hres, ?_⟩
    intro r hr hst
    rw [hres] at hr
    exact hr

/-- Claim C9: for a fixed store, any two authenticated hospital callers receive
the identical pending-queue response from `GET /api/doctor-requests`, and the
returned set is exactly the system-wide `PENDING` requests — membership does not
depend on the request's assigned `hospitalId`, so requests routed to other
facilities are included (the hospital-specific filter is absent). -/
theorem doctorRequests_view_tenant_blind (store : Store) (u₁ u₂ : AuthUser)
    (h₁ : u₁.role = "hospital") (h₂ : u₂.role = "hospital") :
    handleGetDoctorRequests u₁ store = handleGetDoctorRequests u₂ store ∧
      handleGetDoctorRequests u₁ store = QueueResponse.ok (listPendingServer store) ∧
      ∀ r, r ∈ listPendingServer store ↔
        r ∈ store.doctorRequests ∧ r.status = "PENDING" := by
  refine ⟨?_, ?_, fun r => mem_listPendingServer store r⟩
  · unfold handleGetDoctorRequests
    rw [if_pos h₁, if_pos h₂]
  · unfold handleGetDoctorRequests
    rw [if_pos h₁]

lemma handleSos_success_eq (store : Store) (body : ReqBody) (now : ℤ) (newId : String)
    (u : User) (d : ℝ)
    (h : findNearestHospital store.users body.lat body.lng = some (u, d)) :
    handleSosRequest store body now newId =
      (Response.created "SOS request dispatched." (jsOr u.username u.name) d,
       { store with doctorRequests := store.doctorRequests ++
          [{ _id := newId
             patientName := body.patientName
             reason := "🚨 SOS Alert: " ++ body.reason
             criticality := "HIGH"
             lat := body.lat
             lng := body.lng
             hospitalId := u._id
             hospitalName := jsOr u.username u.name
             timestamp := now
             type := "SOS"
             status := "PENDING" }] }) := by
  unfold handleSosRequest
  rw [h]

lemma handleDoctor_success_eq (store : Store) (body : ReqBody) (now : ℤ) (newId : String)
    (u : User) (d : ℝ)
    (h : findNearestHospital store.users body.lat body.lng = some (u, d)) :
    handleDoctorRequest store body now newId =
      (Response.created "Doctor request dispatched." (jsOr u.username u.name) d,
       { store with doctorRequests := store.doctorRequests ++
          [{ _id := newId
             patientName := body.patientName
             reason := body.reason
             criticality := match body.criticality with
                            | some c => if c = "" then "LOW" else c.toUpper
                            | none => "LOW"
             lat := body.lat
             lng := body.lng
             hospitalId := u._id
             hospitalName := jsOr u.username u.name
             timestamp := now
             type := "DOCTOR_CONNECT"
             status := "PENDING" }] }) := by
  unfold handleDoctorRequest
  rw [h]

lemma toDoc_no_num (r : Request) (x : ℝ) (k : String) : (k, JVal.jnum x) ∉ r.toDoc := by
  cases hjs : r.hospitalName <;> simp [Request.toDoc, hjs]

/-- Claim C2 (amended): on every successful dispatch — SOS or doctor-connect —
the computed distance is returned to the caller in the 201 response, and the
persisted Request carries status `PENDING` and the assigned facility id and name,
but the stored document does not contain the distance: no field of the inserted
document holds a numeric value at all. -/
theorem dispatch_persists_without_distance (store : Store) (body : ReqBody)
    (now : ℤ) (newId : String) (u : User) (d : ℝ)
    (h : findNearestHospital store.users body.lat body.lng = some (u, d)) :
    ((handleSosRequest store body now newId).1 =
        Response.created "SOS request dispatched." (jsOr u.username u.name) d ∧
      ∃ r, (handleSosRequest store body now newId).2.doctorRequests =
          store.doctorRequests ++ [r] ∧
        r.status = "PENDING" ∧ r.hospitalId = u._id ∧
        r.hospitalName = jsOr u.username u.name ∧
        ∀ x k, (k, JVal.jnum x) ∉ r.toDoc) ∧
    ((handleDoctorRequest store body now newId).1 =
        Response.created "Doctor request dispatched." (jsOr u.username u.name) d ∧
      ∃ r, (handleDoctorRequest store body now newId).2.doctorRequests =
          store.doctorRequests ++ [r] ∧
        r.status = "PENDING" ∧ r.hospitalId = u._id ∧
        r.hospitalName = jsOr u.username u.name ∧
        ∀ x k, (k, JVal.jnum x) ∉ r.toDoc) := by
  constructor
  · rw [handleSos_success_eq store body now newId u d h]
    exact ⟨rfl, _, rfl, rfl, rfl, rfl, fun x k => toDoc_no_num _ x k⟩
  · rw [handleDoctor_success_eq store body now newId u d h]
    exact ⟨rfl, _, rfl, rfl, rfl, rfl, fun x k => toDoc_no_num _ x k⟩

lemma findNearestHospital_none_iff (users : List User) (plat plng : ℝ) :
    findNearestHospital users plat plng = none ↔
      ¬∃ u ∈ users, approvedHospital u = true ∧ (numCoords u).isSome := by
  rw [findNearestHospital, findNearestGo_none_iff]
  constructor
  · rintro hall ⟨u, hu, hap, hsome⟩
    have hv := hall u (List.mem_filter.mpr ⟨hu, hap⟩)
    rw [vdist] at hv
    rcases hc : numCoords u with _ | p
    · rw [hc] at hsome; simp at hsome
    · rw [hc] at hv; simp at hv
  · intro hne v hv
    rw [vdist]
    rcases hc : numCoords v with _ | p
    · rfl
    · exact absurd ⟨v, (List.mem_filter.mp hv).1, (List.mem_filter.mp hv).2,
        by rw [hc]; rfl⟩ hne

/-- Claim C5: a dispatch (SOS or doctor-connect) issued when no APPROVED facility
with a present, numeric coordinate exists sees `findNearestHospital` return
`none`, fails with the 503 "No operational hospitals found." error surfaced to
the caller, and leaves the request store unchanged; moreover a dispatch fails
with that error if and only if the eligible set is empty. -/
theorem dispatch_no_facility (store : Store) (body : ReqBody) (now : ℤ)
    (newId : String) :
    ((¬∃ u ∈ store.users, approvedHospital u = true ∧ (numCoords u).isSome) →
      findNearestHospital store.users body.lat body.lng = none ∧
      handleSosRequest store body now newId =
        (Response.error 503 "No operational hospitals found.", store) ∧
      handleDoctorRequest store body now newId =
        (Response.error 503 "No operational hospitals found.", store)) ∧
    ((handleSosRequest store body now newId).1 =
        Response.error 503 "No operational hospitals found." ↔
      ¬∃ u ∈ store.users, approvedHospital u = true ∧ (numCoords u).isSome) := by
  constructor
  · intro hne
    have hnone := (findNearestHospital_none_iff store.users body.lat body.lng).mpr hne
    refine ⟨hnone, ?_, ?_⟩
    · unfold handleSosRequest
      rw [hnone]
    · unfold handleDoctorRequest
      rw [hnone]
  · constructor
    · intro herr hex
      have hne : findNearestHospital store.users body.lat body.lng ≠ none := fun hn =>
        (findNearestHospital_none_iff store.users body.lat body.lng).mp hn hex
      rcases hres : findNearestHospital store.users body.lat body.lng with _ | ⟨u, dd⟩
      · exact hne hres
      · have hcr : (handleSosRequest store body now newId).1 =
            Response.created "SOS request dispatched." (jsOr u.username u.name) dd := by
          rw [handleSos_success_eq store body now newId u dd hres]
        rw [hcr] at herr
        exact Response.noConfusion herr
    · intro hne
      have hnone := (findNearestHospital_none_iff store.users body.lat body.lng).mpr hne
      have heq : handleSosRequest store body now newId =
          (Response.error 503 "No operational hospitals found.", store) := by
        unfold handleSosRequest
        rw [hnone]
      rw [heq]

/-- Claim C6: whatever criticality value the caller supplies (including `LOW` or
none at all), a request stored by the SOS dispatch has criticality `HIGH`, kind
`SOS`, and status `PENDING`. -/
theorem sos_request_forced_high (store : Store) (body : ReqBody) (now : ℤ)
    (newId : String) (r : Request)
    (hmem : r ∈ (handleSosRequest store body now newId).2.doctorRequests)
    (hnew : r ∉ store.doctorRequests) :
    r.criticality = "HIGH" ∧ r.type = "SOS" ∧ r.status = "PENDING" := by
  rcases hres : findNearestHospital store.users body.lat body.lng with _ | ⟨u, d⟩
  · have heq : handleSosRequest store body now newId =
        (Response.error 503 "No operational hospitals found.", store) := by
      unfold handleSosRequest
      rw [hres]
    rw [heq] at hmem
    exact absurd hmem hnew
  · rw [handleSos_success_eq store body now newId u d hres] at hmem
    rcases List.mem_append.mp hmem with hold | hnewr
    · exact absurd hold hnew
    · have hr := List.mem_singleton.mp hnewr
      subst hr
      exact ⟨rfl, rfl, rfl⟩

/-- Claim C7: a request stored by the doctor-connect dispatch carries the
caller-supplied criticality normalized to upper case when a non-empty one is
supplied, and defaults to `LOW` when the caller supplies none (an empty string is
falsy for the code's `criticality ? ... : 'LOW'` test, hence treated as absent). -/
theorem doctor_request_criticality (store : Store) (body : ReqBody) (now : ℤ)
    (newId : String) (r : Request)
    (hmem : r ∈ (handleDoctorRequest store body now newId).2.doctorRequests)
    (hnew : r ∉ store.doctorRequests) :
    (∀ c, body.criticality = some c → c ≠ "" → r.criticality = c.toUpper) ∧
      (body.criticality = none → r.criticality = "LOW") := by
  rcases hres : findNearestHospital store.users body.lat body.lng with _ | ⟨u, d⟩
  · have heq : handleDoctorRequest store body now newId =
        (Response.error 503 "No operational hospitals found.", store) := by
      unfold handleDoctorRequest
      rw [hres]
    rw [heq] at hmem
    exact absurd hmem hnew
  · rw [handleDoctor_success_eq store body now newId u d hres] at hmem
    rcases List.mem_append.mp hmem with hold | hnewr
    · exact absurd hold hnew
    · have hr := List.mem_singleton.mp hnewr
      subst hr
      constructor
      · intro c hc hcne
        simp only [hc]
        rw [if_neg hcne]
      · intro hc
        simp only [hc]

/-- An approved hospital with numeric coordinates (the seeded admin shape). -/
def hosp₁ : User :=
  { _id := "HSP1", username := some "CityCare", name := none, role := "hospital",
    status := some "APPROVED", location := some (JNum.num 12, JNum.num 77) }

/-- An approved hospital whose stored location fields do not parse as numbers. -/
def hospNaN : User :=
  { _id := "HSP3", username := none, name := some "BrokenLoc", role := "hospital",
    status := some "APPROVED", location := some (JNum.nan, JNum.nan) }

/-- A store with one operational hospital and an empty request queue. -/
def store₁ : Store := { users := [hosp₁], doctorRequests := [] }

/-- A store with no users at all (no operational facility). -/
def store₀ : Store := { users := [], doctorRequests := [] }

/-- An SOS submission whose caller supplied criticality `LOW`. -/
def body₁ : ReqBody :=
  { patientName := "Asha", reason := "chest pain", criticality := some "LOW",
    lat := 10, lng := 70 }

/-- A doctor-connect submission with lower-case criticality `medium`. -/
def bodyMed : ReqBody :=
  { patientName := "Ravi", reason := "cold", criticality := some "medium",
    lat := 10, lng := 70 }

/-- A doctor-connect submission with no criticality at all. -/
def bodyNone : ReqBody :=
  { patientName := "Meera", reason := "rash", criticality := none,
    lat := 10, lng := 70 }

/-- The document the SOS dispatch on `store₁` and `body₁` persists. -/
def sosRec₁ : Request :=
  { _id := "R1", patientName := "Asha", reason := "🚨 SOS Alert: chest pain",
    criticality := "HIGH", lat := 10, lng := 70, hospitalId := "HSP1",
    hospitalName := some "CityCare", timestamp := 0, type := "SOS",
    status := "PENDING" }

/-- The document the doctor-connect dispatch on `store₁` and `bodyMed` persists. -/
def docRecMed : Request :=
  { _id := "R2", patientName := "Ravi", reason := "cold",
    criticality := "medium".toUpper, lat := 10, lng := 70, hospitalId := "HSP1",
    hospitalName := some "CityCare", timestamp := 0, type := "DOCTOR_CONNECT",
    status := "PENDING" }

/-- The document the doctor-connect dispatch on `store₁` and `bodyNone` persists. -/
def docRecNone : Request :=
  { _id := "R3", patientName := "Meera", reason := "rash",
    criticality := "LOW", lat := 10, lng := 70, hospitalId := "HSP1",
    hospitalName := some "CityCare", timestamp := 0, type := "DOCTOR_CONNECT",
    status := "PENDING" }

/-- Pending doctor-connect request with criticality `HIGH` created at `t = 10`. -/
def reqHigh10 : Request :=
  { _id := "RA", patientName := "P1", reason := "fever", criticality := "HIGH",
    lat := 0, lng := 0, hospitalId := "H1", hospitalName := some "CityCare",
    timestamp := 10, type := "DOCTOR_CONNECT", status := "PENDING" }

/-- Pending doctor-connect request with criticality `LOW` created at `t = 1`. -/
def reqLow1 : Request :=
  { _id := "RB", patientName := "P2", reason := "cough", criticality := "LOW",
    lat := 0, lng := 0, hospitalId := "H1", hospitalName := some "CityCare",
    timestamp := 1, type := "DOCTOR_CONNECT", status := "PENDING" }

/-- Pending doctor-connect request with criticality `HIGH` created at `t = 5`. -/
def reqHigh5 : Request :=
  { _id := "RC", patientName := "P3", reason := "pain", criticality := "HIGH",
    lat := 0, lng := 0, hospitalId := "H1", hospitalName := some "CityCare",
    timestamp := 5, type := "DOCTOR_CONNECT", status := "PENDING" }

/-- The spec §8 `listPending` example store:
requests `[(HIGH, t=10), (LOW, t=1), (HIGH, t=5)]`, all `PENDING`. -/
def storeQueue : Store :=
  { users := [], doctorRequests := [reqHigh10, reqLow1, reqHigh5] }

/-- A request with id `RA` that has already been resolved. -/
def reqResolvedRA : Request :=
  { _id := "RA", patientName := "P1", reason := "fever", criticality := "HIGH",
    lat := 0, lng := 0, hospitalId := "H1", hospitalName := some "CityCare",
    timestamp := 10, type := "DOCTOR_CONNECT", status := "RESOLVED" }

/-- A store whose only request with id `RA` is already `RESOLVED`. -/
def storeRes : Store := { users := [], doctorRequests := [reqResolvedRA] }

/-- A pending request assigned to facility `H9`. -/
def reqOther : Request :=
  { _id := "RD", patientName := "P4", reason := "ache", criticality := "LOW",
    lat := 0, lng := 0, hospitalId := "H9", hospitalName := some "FarCare",
    timestamp := 3, type := "DOCTOR_CONNECT", status := "PENDING" }

/-- A store holding only `reqOther`. -/
def storeView : Store := { users := [], doctorRequests := [reqOther] }

/-- An authenticated hospital user distinct from `au₂`. -/
def au₁ : AuthUser := { username := "HospitalAdmin", role := "hospital", id := "U1" }

/-- An authenticated hospital user distinct from `au₁`. -/
def au₂ : AuthUser := { username := "CityCare", role := "hospital", id := "U2" }

/-- Claim C1: evaluating the pending-queue read at the spec's own ordering example
`[(HIGH, t=10), (LOW, t=1), (HIGH, t=5)]`.  The endpoint's Mongo sort
`{criticality: -1, timestamp: 1}` compares the criticality field as a string,
descending, and `"LOW"` is byte-wise greater than `"HIGH"`, so the endpoint
returns the `LOW` request first: `[(LOW,1), (HIGH,5), (HIGH,10)]`, not the rank
order `[(HIGH,5), (HIGH,10), (LOW,1)]` the claim (and the code's own
"Prioritize High Criticality" comment) require. -/
theorem listPendingServer_at_spec_example :
    listPendingServer storeQueue = [reqLow1, reqHigh5, reqHigh10] := rfl

/-- Claim C2 is false at a concrete successful SOS dispatch: the 201 response
carries the computed distance, the persisted document is `PENDING`, yet no field
of the persisted document holds that distance. -/
theorem dispatch_distance_not_persisted_cex :
    (handleSosRequest store₁ body₁ 0 "R1").1 =
      Response.created "SOS request dispatched." (some "CityCare")
        (getDistance 10 70 12 77) ∧
    ((handleSosRequest store₁ body₁ 0 "R1").2.doctorRequests = [sosRec₁] ∧
      sosRec₁.status = "PENDING" ∧
      ¬∃ k, (k, JVal.jnum (getDistance 10 70 12 77)) ∈ sosRec₁.toDoc) := by
  refine ⟨rfl, rfl, rfl, ?_⟩
  rintro ⟨k, hk⟩
  exact toDoc_no_num sosRec₁ (getDistance 10 70 12 77) k hk

/-- Witness for C2's amended theorem at `store₁`, `body₁`, `hosp₁`. -/
theorem dispatch_persists_without_distance_witness :
    findNearestHospital store₁.users body₁.lat body₁.lng =
        some (hosp₁, getDistance 10 70 12 77) ∧
      (((handleSosRequest store₁ body₁ 0 "R1").1 =
          Response.created "SOS request dispatched."
            (jsOr hosp₁.username hosp₁.name) (getDistance 10 70 12 77) ∧
        ∃ r, (handleSosRequest store₁ body₁ 0 "R1").2.doctorRequests =
            store₁.doctorRequests ++ [r] ∧
          r.status = "PENDING" ∧ r.hospitalId = hosp₁._id ∧
          r.hospitalName = jsOr hosp₁.username hosp₁.name ∧
          ∀ x k, (k, JVal.jnum x) ∉ r.toDoc) ∧
       ((handleDoctorRequest store₁ body₁ 0 "R1").1 =
          Response.created "Doctor request dispatched."
            (jsOr hosp₁.username hosp₁.name) (getDistance 10 70 12 77) ∧
        ∃ r, (handleDoctorRequest store₁ body₁ 0 "R1").2.doctorRequests =
            store₁.doctorRequests ++ [r] ∧
          r.status = "PENDING" ∧ r.hospitalId = hosp₁._id ∧
          r.hospitalName = jsOr hosp₁.username hosp₁.name ∧
          ∀ x k, (k, JVal.jnum x) ∉ r.toDoc)) :=
  ⟨rfl, dispatch_persists_without_distance store₁ body₁ 0 "R1" hosp₁
    (getDistance 10 70 12 77) rfl⟩

/-- Witness for C3 on the one-hospital candidate list `[hosp₁]`. -/
theorem findNearestHospital_min_first_witness :
    (∃ u ∈ [hosp₁], approvedHospital u = true ∧ (numCoords u).isSome) ∧
      ∃ u d, findNearestHospital [hosp₁] 10 70 = some (u, d) ∧
        u ∈ [hosp₁] ∧ approvedHospital u = true ∧
        vdist 10 70 u = some d ∧
        (∀ v ∈ [hosp₁], approvedHospital v = true →
          ∀ dv, vdist 10 70 v = some dv → d ≤ dv) ∧
        ∃ l₁ l₂, List.filter approvedHospital [hosp₁] = l₁ ++ u :: l₂ ∧
          ∀ v ∈ l₁, ∀ dv, vdist 10 70 v = some dv → d < dv := by
  have hyp : ∃ u ∈ [hosp₁], approvedHospital u = true ∧ (numCoords u).isSome :=
    ⟨hosp₁, List.mem_cons_self hosp₁ [], rfl, rfl⟩
  exact ⟨hyp, findNearestHospital_min_first [hosp₁] 10 70 hyp⟩

/-- Witness for C4: resolving pending `RA` in `storeQueue` succeeds and flips it;
resolving `RA` in `storeRes`, where it is already resolved, is a `NOT_FOUND`
no-op. -/
theorem resolveRequest_transition_witness :
    (∃ r ∈ storeQueue.doctorRequests, r._id = "RA" ∧ r.status = "PENDING") ∧
      ((resolveRequest storeQueue "RA").1 = ResolveResult.ok ∧
        ∃ l₁ r l₂, storeQueue.doctorRequests = l₁ ++ r :: l₂ ∧
          r._id = "RA" ∧ r.status = "PENDING" ∧
          (∀ p ∈ l₁, ¬(p._id = "RA" ∧ p.status = "PENDING")) ∧
          (resolveRequest storeQueue "RA").2.doctorRequests =
            l₁ ++ { r with status := "RESOLVED" } :: l₂) ∧
      (¬∃ r ∈ storeRes.doctorRequests, r._id = "RA" ∧ r.status = "PENDING") ∧
      resolveRequest storeRes "RA" = (ResolveResult.notFound, storeRes) := by
  have hex : ∃ r ∈ storeQueue.doctorRequests, r._id = "RA" ∧ r.status = "PENDING" :=
    ⟨reqHigh10, List.mem_cons_self reqHigh10 [reqLow1, reqHigh5], rfl, rfl⟩
  have hnot : ¬∃ r ∈ storeRes.doctorRequests, r._id = "RA" ∧ r.status = "PENDING" := by
    rintro ⟨r, hr, -, hst⟩
    have hr2 : r ∈ [reqResolvedRA] := hr
    rw [List.mem_singleton] at hr2
    subst hr2
    exact absurd hst (by decide)
  exact ⟨hex, (resolveRequest_transition storeQueue "RA").1 hex,
    hnot, (resolveRequest_transition storeRes "RA").2.1 hnot⟩

/-- Witness for C5 on the facility-free store `store₀`. -/
theorem dispatch_no_facility_witness :
    (¬∃ u ∈ store₀.users, approvedHospital u = true ∧ (numCoords u).isSome) ∧
      (findNearestHospital store₀.users body₁.lat body₁.lng = none ∧
        handleSosRequest store₀ body₁ 0 "R1" =
          (Response.error 503 "No operational hospitals found.", store₀) ∧
        handleDoctorRequest store₀ body₁ 0 "R1" =
          (Response.error 503 "No operational hospitals found.", store₀)) := by
  have hne : ¬∃ u ∈ store₀.users, approvedHospital u = true ∧ (numCoords u).isSome := by
    rintro ⟨u, hu, -⟩
    exact absurd hu (List.not_mem_nil u)
  exact ⟨hne, (dispatch_no_facility store₀ body₁ 0 "R1").1 hne⟩

/-- Witness for C6: an SOS dispatch carrying caller criticality `LOW` stores a
request with criticality `HIGH`. -/
theorem sos_request_forced_high_witness :
    sosRec₁ ∈ (handleSosRequest store₁ body₁ 0 "R1").2.doctorRequests ∧
      sosRec₁ ∉ store₁.doctorRequests ∧
      (sosRec₁.criticality = "HIGH" ∧ sosRec₁.type = "SOS" ∧
        sosRec₁.status = "PENDING") := by
  have hmem : sosRec₁ ∈ (handleSosRequest store₁ body₁ 0 "R1").2.doctorRequests :=
    List.mem_cons_self sosRec₁ []
  have hnew : sosRec₁ ∉ store₁.doctorRequests := List.not_mem_nil sosRec₁
  exact ⟨hmem, hnew, sos_request_forced_high store₁ body₁ 0 "R1" sosRec₁ hmem hnew⟩

/-- Witness for C7: `medium` is stored upper-cased, an absent criticality is
stored as `LOW`. -/
theorem doctor_request_criticality_witness :
    docRecMed ∈ (handleDoctorRequest store₁ bodyMed 0 "R2").2.doctorRequests ∧
      docRecMed ∉ store₁.doctorRequests ∧
      docRecMed.criticality = "medium".toUpper ∧
      docRecNone ∈ (handleDoctorRequest store₁ bodyNone 0 "R3").2.doctorRequests ∧
      docRecNone ∉ store₁.doctorRequests ∧
      docRecNone.criticality = "LOW" := by
  have hmem₁ : docRecMed ∈ (handleDoctorRequest store₁ bodyMed 0 "R2").2.doctorRequests :=
    List.mem_cons_self docRecMed []
  have hnew₁ : docRecMed ∉ store₁.doctorRequests := List.not_mem_nil docRecMed
  have hmem₂ : docRecNone ∈ (handleDoctorRequest store₁ bodyNone 0 "R3").2.doctorRequests :=
    List.mem_cons_self docRecNone []
  have hnew₂ : docRecNone ∉ store₁.doctorRequests := List.not_mem_nil docRecNone
  exact ⟨hmem₁, hnew₁,
    (doctor_request_criticality store₁ bodyMed 0 "R2" docRecMed hmem₁ hnew₁).1
      "medium" rfl (by decide),
    hmem₂, hnew₂,
    (doctor_request_criticality store₁ bodyNone 0 "R3" docRecNone hmem₂ hnew₂).2 rfl⟩

/-- Witness for C9: two distinct hospital users see the identical queue over a
store whose only pending request is assigned to a third facility. -/
theorem doctorRequests_view_tenant_blind_witness :
    au₁.role = "hospital" ∧ au₂.role = "hospital" ∧
      handleGetDoctorRequests au₁ storeView = handleGetDoctorRequests au₂ storeView ∧
      (reqOther ∈ listPendingServer storeView ↔
        reqOther ∈ storeView.doctorRequests ∧ reqOther.status = "PENDING") :=
  ⟨rfl, rfl, (doctorRequests_view_tenant_blind storeView au₁ au₂ rfl rfl).1,
    (doctorRequests_view_tenant_blind storeView au₁ au₂ rfl rfl).2.2 reqOther⟩

/-- Witness for C10: a queue of one approved hospital whose location fields are
non-numeric resolves to `none`; a facility that is returned has numeric
coordinates. -/
theorem findNearestHospital_skips_nonnumeric_witness :
    findNearestHospital [hospNaN] 10 70 = none ∧
      ∃ la lg, hosp₁.location = some (JNum.num la, JNum.num lg) ∧
        getDistance 10 70 12 77 = getDistance 10 70 la lg := by
  constructor
  · apply (findNearestHospital_skips_nonnumeric [hospNaN] 10 70).2
    intro u hu hap
    have hu2 : u ∈ [hospNaN] := hu
    rw [List.mem_singleton] at hu2
    subst hu2
    rfl
  · exact (findNearestHospital_skips_nonnumeric [hosp₁] 10 70).1 hosp₁
      (getDistance 10 70 12 77) rfl
